import Mathlib

/-!
Shallow embedding of the dual-layout animation engine of the Xmas scene:
a shader-evaluated particle foliage field and three host-evaluated
instanced ornament pools that morph between a scattered cloud and a
tree shape, driven by one progress scalar per pool.

Embedded from the repository source:
- constants.ts (TREE_CONFIG, ANIMATION_CONFIG)
- the Foliage component (particle endpoint generation, the foliage
  vertex shader, the per-frame uniform update)
- the Ornaments component (generateData, animateMesh, the per-frame
  update including the top star)

Real numbers stand for the JS / GLSL floats; every Math.random() draw
becomes a universally quantified input in [0,1).
-/

namespace Xmas

/-- TREE_CONFIG.HEIGHT from constants.ts. -/
noncomputable def HEIGHT : ℝ := 9

/-- TREE_CONFIG.RADIUS_BASE from constants.ts. -/
noncomputable def RADIUS_BASE : ℝ := 3.5

/-- TREE_CONFIG.PARTICLE_COUNT from constants.ts. -/
def PARTICLE_COUNT : ℕ := 15000

/-- TREE_CONFIG.ORNAMENT_COUNT from constants.ts. -/
def ORNAMENT_COUNT : ℕ := 450

/-- TREE_CONFIG.SCATTER_RADIUS from constants.ts. -/
noncomputable def SCATTER_RADIUS : ℝ := 15

/-- ANIMATION_CONFIG.TRANSITION_SPEED from constants.ts. -/
noncomputable def TRANSITION_SPEED : ℝ := 2.0

/-- The easing used on the host side, line 116 of the Ornaments
component: eased = progress < 0.5 ? 4*p*p*p : 1 - Math.pow(-2*p+2,3)/2. -/
noncomputable def hostEase (progress : ℝ) : ℝ :=
  if progress < 0.5 then 4 * progress * progress * progress
  else 1 - (-2 * progress + 2) ^ 3 / 2

/-- easeInOutCubic from the foliage vertex shader:
x < 0.5 ? 4.0*x*x*x : 1.0 - pow(-2.0*x+2.0, 3.0)/2.0. -/
noncomputable def easeInOutCubic (x : ℝ) : ℝ :=
  if x < 0.5 then 4.0 * x * x * x
  else 1.0 - (-2.0 * x + 2.0) ^ 3 / 2.0

/-- The easing contract as the spec words it (refinement reference):
ease(x) = 4x^3 for x < 0.5, else 1 - ((-2x+2)^3)/2. -/
noncomputable def specEase (x : ℝ) : ℝ :=
  if x < 0.5 then 4 * x ^ 3 else 1 - (-2 * x + 2) ^ 3 / 2

/-- THREE.MathUtils.lerp, used for every endpoint blend on the host side. -/
noncomputable def lerp (x y t : ℝ) : ℝ := x + (y - x) * t

/-- GLSL clamp on floats. -/
noncomputable def clampGL (x lo hi : ℝ) : ℝ := min (max x lo) hi

/-- Per-element local progress from the foliage vertex shader:
localProgress = clamp(uProgress * 1.2 - aRandom * 0.2, 0.0, 1.0). -/
noncomputable def localProgress (uProgress aRandom : ℝ) : ℝ :=
  clampGL (uProgress * 1.2 - aRandom * 0.2) 0.0 1.0

/-- GLSL mix on one float component: mix(x, y, a) = x*(1-a) + y*a. -/
noncomputable def mixGL (x y a : ℝ) : ℝ := x * (1 - a) + y * a

/-- The shader-evaluated position blend, foliage vertex shader lines
161-167: localProgress = clamp(uProgress*1.2 - aRandom*0.2, 0.0, 1.0),
easedProgress = easeInOutCubic(localProgress),
pos = mix(aScatterPos, aTreePos, easedProgress). -/
noncomputable def foliageBlendedPos (aScatterPos aTreePos : ℝ × ℝ × ℝ)
    (uProgress aRandom : ℝ) : ℝ × ℝ × ℝ :=
  (mixGL aScatterPos.1 aTreePos.1
     (easeInOutCubic (localProgress uProgress aRandom)),
   mixGL aScatterPos.2.1 aTreePos.2.1
     (easeInOutCubic (localProgress uProgress aRandom)),
   mixGL aScatterPos.2.2 aTreePos.2.2
     (easeInOutCubic (localProgress uProgress aRandom)))

/-- The progress update of animateMesh, lines 111-114 of the Ornaments
component: progress = userData.progress ?? 0, then
progress += (targetProgress - progress) * delta * TRANSITION_SPEED. -/
noncomputable def stepProgress (stored : Option ℝ) (targetProgress delta : ℝ) : ℝ :=
  stored.getD 0 + (targetProgress - stored.getD 0) * delta * TRANSITION_SPEED

/-- The uProgress update of the Foliage per-frame callback:
uProgress += (target - uProgress) * delta * TRANSITION_SPEED. -/
noncomputable def foliageProgressStep (current target delta : ℝ) : ℝ :=
  current + (target - current) * delta * TRANSITION_SPEED

/-- Repeated application of the per-frame progress update over a list of
frame durations. -/
noncomputable def integrate (p target : ℝ) (deltas : List ℝ) : ℝ :=
  deltas.foldl (fun q d => foliageProgressStep q target d) p

/-- The ornament kind tag of types.ts (type: box | sphere | star). -/
inductive OrnamentType
  | box
  | sphere
  | star

/-- PositionData from types.ts: both endpoint positions, base rotation,
base scale and kind for one instanced ornament. -/
structure PositionData where
  treePosition : ℝ × ℝ × ℝ
  scatterPosition : ℝ × ℝ × ℝ
  rotation : ℝ × ℝ × ℝ
  scale : ℝ
  type : OrnamentType

/-- The transform written into one instance slot by animateMesh
(dummy.position, dummy.rotation, dummy.scale with setScalar). -/
structure Transform where
  position : ℝ × ℝ × ℝ
  rotation : ℝ × ℝ × ℝ
  scale : ℝ

/-- The per-instance body of the animateMesh loop, lines 119-151 of the
Ornaments component: blend position with the eased progress, spin
(scaled by 1 - eased) or wobble the rotation, apply the pool scale
multiplier to the instance base scale. -/
noncomputable def instanceTransform (d : PositionData) (i : ℕ)
    (eased clockTime scaleMult : ℝ) (wobble : Bool) : Transform :=
  ⟨(lerp d.scatterPosition.1 d.treePosition.1 eased,
    lerp d.scatterPosition.2.1 d.treePosition.2.1 eased,
    lerp d.scatterPosition.2.2 d.treePosition.2.2 eased),
   if wobble then
     (lerp (d.rotation.1 + clockTime) 0 eased + Real.sin (clockTime * 2 + i) * 0.1,
      lerp (d.rotation.2.1 + clockTime) d.rotation.2.1 eased,
      lerp (d.rotation.2.2 + clockTime) 0 eased + Real.sin (clockTime * 2 + i) * 0.1)
   else
     (d.rotation.1 + clockTime * 0.5 * (1.0 - eased),
      d.rotation.2.1 + clockTime * 0.3 * (1.0 - eased),
      d.rotation.2.2),
   d.scale * scaleMult⟩

/-- animateMesh of the Ornaments component: update the stored pool
progress, ease it, then write one transform per element of the data
array (setMatrixAt i). Returns the new stored progress and the list of
(slot index, transform) writes. -/
noncomputable def animateMesh (stored : Option ℝ) (data : List PositionData)
    (delta clockTime targetProgress scaleMult : ℝ) (wobble : Bool) :
    ℝ × List (ℕ × Transform) :=
  (stepProgress stored targetProgress delta,
   data.enum.map (fun pr =>
     (pr.1, instanceTransform pr.2 pr.1
       (hostEase (stepProgress stored targetProgress delta))
       clockTime scaleMult wobble)))

/-- targetProgress = treeState === TreeState.TREE_SHAPE ? 1.0 : 0.0. -/
noncomputable def targetOf (treeFormed : Bool) : ℝ :=
  if treeFormed then 1.0 else 0.0

/-- The star progress read, line 166 of the Ornaments component:
p = goldSpheresRef.current?.userData.progress ?? (treeState tree ? 1 : 0). -/
noncomputable def starP (stored : Option ℝ) (treeFormed : Bool) : ℝ :=
  stored.getD (if treeFormed then 1 else 0)

/-- The mutable per-pool state carried between frames by the Ornaments
component: the userData.progress of each instanced mesh (absent before
the first frame) and the star group rotation about y. -/
structure OrnamentsState where
  goldProgress : Option ℝ
  redProgress : Option ℝ
  bellProgress : Option ℝ
  starRotY : ℝ

/-- Everything one Ornaments frame produces: the new mutable state, the
matrix writes of the three pools, and the star transform fields the
frame sets (position.y, scale; rotation.y is carried in the state). -/
structure FrameResult where
  state : OrnamentsState
  goldWrites : List (ℕ × Transform)
  redWrites : List (ℕ × Transform)
  bellWrites : List (ℕ × Transform)
  starPosY : ℝ
  starScale : ℝ

/-- The useFrame body of the Ornaments component: animateMesh on the
three pools (spheres mult 1, boxes mult 1.3, bells mult 1 with wobble),
then the star update reading the sphere pool progress just written. -/
noncomputable def ornamentsUseFrame (s : OrnamentsState)
    (gold red bell : List PositionData) (delta time : ℝ) (treeFormed : Bool) :
    FrameResult :=
  ⟨⟨some (animateMesh s.goldProgress gold delta time (targetOf treeFormed) 1.0 false).1,
    some (animateMesh s.redProgress red delta time (targetOf treeFormed) 1.3 false).1,
    some (animateMesh s.bellProgress bell delta time (targetOf treeFormed) 1.0 true).1,
    s.starRotY + delta * 0.5⟩,
   (animateMesh s.goldProgress gold delta time (targetOf treeFormed) 1.0 false).2,
   (animateMesh s.redProgress red delta time (targetOf treeFormed) 1.3 false).2,
   (animateMesh s.bellProgress bell delta time (targetOf treeFormed) 1.0 true).2,
   lerp (HEIGHT + 5) HEIGHT
     (starP (some (animateMesh s.goldProgress gold delta time (targetOf treeFormed) 1.0 false).1) treeFormed),
   (1 + Real.sin (time * 3) * 0.1) *
     starP (some (animateMesh s.goldProgress gold delta time (targetOf treeFormed) 1.0 false).1) treeFormed⟩

/-- The useFrame body of the Foliage component: set uTime to the clock
elapsed time and integrate uProgress toward the target state. -/
noncomputable def foliageUseFrame (uProgress elapsedTime delta : ℝ)
    (treeFormed : Bool) : ℝ × ℝ :=
  (elapsedTime, foliageProgressStep uProgress (targetOf treeFormed) delta)

/-- The 3-element pool of the end-to-end scenario: scattered endpoints
all at the origin, formed endpoints (1,1,1), (2,2,2), (3,3,3). -/
noncomputable def demoPool : List PositionData :=
  [⟨(1, 1, 1), (0, 0, 0), (0, 0, 0), 1, OrnamentType.box⟩,
   ⟨(2, 2, 2), (0, 0, 0), (0, 0, 0), 1, OrnamentType.box⟩,
   ⟨(3, 3, 3), (0, 0, 0), (0, 0, 0), 1, OrnamentType.box⟩]

/-- Length of the gold sphere pool data array, line 93:
generateData(Math.floor(ORNAMENT_COUNT * 0.4)). -/
noncomputable def goldSphereDataLength : ℕ := (⌊(ORNAMENT_COUNT : ℝ) * 0.4⌋).toNat

/-- Length of the red box pool data array, line 94:
generateData(Math.floor(ORNAMENT_COUNT * 0.4)). -/
noncomputable def redBoxDataLength : ℕ := (⌊(ORNAMENT_COUNT : ℝ) * 0.4⌋).toNat

/-- Length of the bell pool data array, line 95:
generateData(Math.floor(ORNAMENT_COUNT * 0.2)). -/
noncomputable def bellDataLength : ℕ := (⌊(ORNAMENT_COUNT : ℝ) * 0.2⌋).toNat

/-- Math.cbrt, applied by the Foliage generator to draws in [0,1). -/
noncomputable def mathCbrt (x : ℝ) : ℝ := x ^ ((1:ℝ)/3)

/-- The formed-layout radius of one foliage particle, from the Foliage
generation loop: r = (Math.random() * 0.3 + 0.7) * rAtH with
rAtH = RADIUS_BASE * (1 - h) — biased toward the cone surface. -/
noncomputable def foliageTreeRadius (radiusRand h : ℝ) : ℝ :=
  (radiusRand * 0.3 + 0.7) * (RADIUS_BASE * (1 - h))

/-- The formed-layout position of foliage particle i, from the Foliage
generation loop: angle = i * 0.1 + rand * PI * 2, position
(cos(angle) * r, h * HEIGHT, sin(angle) * r). -/
noncomputable def foliageTreePos (i : ℕ) (h angleRand radiusRand : ℝ) :
    ℝ × ℝ × ℝ :=
  (Real.cos (i * 0.1 + angleRand * Real.pi * 2) * foliageTreeRadius radiusRand h,
   h * HEIGHT,
   Real.sin (i * 0.1 + angleRand * Real.pi * 2) * foliageTreeRadius radiusRand h)

/-- The scattered-layout radius of one foliage particle:
sr = Math.cbrt(Math.random()) * SCATTER_RADIUS. -/
noncomputable def foliageScatterRadius (w : ℝ) : ℝ := mathCbrt w * SCATTER_RADIUS

/-- The scattered-layout radius of one ornament, from generateData:
sr = SCATTER_RADIUS * 0.9 — a fixed value, independent of every draw. -/
noncomputable def ornamentScatterRadius : ℝ := SCATTER_RADIUS * 0.9

/-- The azimuth of a scatter sample: theta = 2 * PI * u. -/
noncomputable def scatterTheta (u : ℝ) : ℝ := 2 * Real.pi * u

/-- The polar angle of a scatter sample: phi = acos(2 * v - 1). -/
noncomputable def scatterPhi (v : ℝ) : ℝ := Real.arccos (2 * v - 1)

/-- The spherical-coordinate point both generators build from a radius
and the two angles, vertically offset by HEIGHT / 2. -/
noncomputable def scatterPoint (sr theta phi : ℝ) : ℝ × ℝ × ℝ :=
  (sr * Real.sin phi * Real.cos theta,
   sr * Real.sin phi * Real.sin theta + HEIGHT / 2,
   sr * Real.cos phi)

/-- The foliage scatter sample, Foliage generation loop lines 254-262. -/
noncomputable def foliageScatterPos (u v w : ℝ) : ℝ × ℝ × ℝ :=
  (mathCbrt w * SCATTER_RADIUS * Real.sin (Real.arccos (2 * v - 1)) *
     Real.cos (2 * Real.pi * u),
   mathCbrt w * SCATTER_RADIUS * Real.sin (Real.arccos (2 * v - 1)) *
     Real.sin (2 * Real.pi * u) + HEIGHT / 2,
   mathCbrt w * SCATTER_RADIUS * Real.cos (Real.arccos (2 * v - 1)))

/-- The ornament scatter sample, generateData lines 70-79. -/
noncomputable def ornamentScatterPos (u v : ℝ) : ℝ × ℝ × ℝ :=
  (SCATTER_RADIUS * 0.9 * Real.sin (Real.arccos (2 * v - 1)) *
     Real.cos (2 * Real.pi * u),
   SCATTER_RADIUS * 0.9 * Real.sin (Real.arccos (2 * v - 1)) *
     Real.sin (2 * Real.pi * u) + HEIGHT / 2,
   SCATTER_RADIUS * 0.9 * Real.cos (Real.arccos (2 * v - 1)))

/-- Distance from the scatter cloud center (0, HEIGHT / 2, 0). -/
noncomputable def distFromScatterCenter (p : ℝ × ℝ × ℝ) : ℝ :=
  Real.sqrt (p.1 ^ 2 + (p.2.1 - HEIGHT / 2) ^ 2 + p.2.2 ^ 2)

lemma hostEase_zero : hostEase 0 = 0 := by
  norm_num [hostEase]

lemma hostEase_one : hostEase 1 = 1 := by
  norm_num [hostEase]

lemma lerp_zero (x y : ℝ) : lerp x y 0 = x := by
  simp [lerp]

lemma lerp_one (x y : ℝ) : lerp x y 1 = y := by
  simp [lerp]

lemma easeInOutCubic_zero : easeInOutCubic 0 = 0 := by
  norm_num [easeInOutCubic]

lemma easeInOutCubic_one : easeInOutCubic 1 = 1 := by
  norm_num [easeInOutCubic]

lemma mixGL_zero (x y : ℝ) : mixGL x y 0 = x := by
  simp [mixGL]

lemma mixGL_one (x y : ℝ) : mixGL x y 1 = y := by
  simp [mixGL]

lemma localProgress_one (r : ℝ) (h0 : 0 ≤ r) (h1 : r ≤ 1) :
    localProgress 1 r = 1 := by
  unfold localProgress clampGL
  have hge : (1.0:ℝ) ≤ max (1 * 1.2 - r * 0.2) 0.0 :=
    le_trans (by linarith) (le_max_left (1 * 1.2 - r * 0.2) 0.0)
  rw [min_eq_right hge]
  norm_num

lemma localProgress_zero (r : ℝ) (h0 : 0 ≤ r) : localProgress 0 r = 0 := by
  unfold localProgress clampGL
  rw [max_eq_right (by linarith : 0 * 1.2 - r * 0.2 ≤ (0.0:ℝ))]
  norm_num

lemma stepProgress_some_zero (p g : ℝ) : stepProgress (some p) g 0 = p := by
  simp [stepProgress]

lemma mathCbrt_nonneg (w : ℝ) (hw : 0 ≤ w) : 0 ≤ mathCbrt w :=
  Real.rpow_nonneg hw _

lemma mathCbrt_le_one (w : ℝ) (hw0 : 0 ≤ w) (hw1 : w ≤ 1) : mathCbrt w ≤ 1 :=
  Real.rpow_le_one hw0 hw1 (by norm_num)

lemma mathCbrt_cube (w : ℝ) (hw : 0 ≤ w) : mathCbrt w ^ 3 = w := by
  unfold mathCbrt
  rw [← Real.rpow_natCast (w ^ ((1:ℝ)/3)) 3, ← Real.rpow_mul hw]
  norm_num

lemma distFromScatterCenter_scatterPoint (sr theta phi : ℝ) (hsr : 0 ≤ sr) :
    distFromScatterCenter (scatterPoint sr theta phi) = sr := by
  unfold distFromScatterCenter scatterPoint
  have hθ := Real.sin_sq_add_cos_sq theta
  have hφ := Real.sin_sq_add_cos_sq phi
  have hk : (sr * Real.sin phi * Real.cos theta) ^ 2 +
      (sr * Real.sin phi * Real.sin theta + HEIGHT / 2 - HEIGHT / 2) ^ 2 +
      (sr * Real.cos phi) ^ 2 = sr ^ 2 := by
    linear_combination (sr ^ 2 * Real.sin phi ^ 2) * hθ + sr ^ 2 * hφ
  dsimp only
  rw [hk, Real.sqrt_sq_eq_abs, abs_of_nonneg hsr]

lemma foliageProgressStep_toward_one (p d : ℝ) (hp0 : 0 ≤ p) (hp1 : p ≤ 1)
    (hd0 : 0 ≤ d) (hd1 : d * TRANSITION_SPEED ≤ 1) :
    p ≤ foliageProgressStep p 1 d ∧ foliageProgressStep p 1 d ≤ 1 := by
  unfold foliageProgressStep TRANSITION_SPEED at *
  constructor
  · nlinarith [mul_nonneg (sub_nonneg.2 hp1) hd0]
  · nlinarith [mul_nonneg (sub_nonneg.2 hp1) (by linarith : 0 ≤ 1 - d * 2)]

lemma integrate_toward_one_bounds (deltas : List ℝ) :
    ∀ p, 0 ≤ p → p ≤ 1 →
    (∀ d ∈ deltas, 0 ≤ d ∧ d * TRANSITION_SPEED ≤ 1) →
    0 ≤ integrate p 1 deltas ∧ integrate p 1 deltas ≤ 1 := by
  induction deltas with
  | nil => intro p hp0 hp1 _; exact ⟨hp0, hp1⟩
  | cons d rest ih =>
    intro p hp0 hp1 h
    have hd := h d (List.mem_cons_self d rest)
    have hstep := foliageProgressStep_toward_one p d hp0 hp1 hd.1 hd.2
    have := ih (foliageProgressStep p 1 d) (le_trans hp0 hstep.1) hstep.2
      (fun e he => h e (List.mem_cons_of_mem d he))
    exact this

/-- C1 (amended): every pool's per-frame progress update follows
progress + (target - progress) * dt * k with the single shared rate
constant k = TRANSITION_SPEED, and for frames with dt * k at most 1 the
integration toward target 1 starting from 0 never exceeds 1 and never
decreases, and toward target 0 never goes negative. (Unrestricted dt
overshoots; see the counterexample.) -/
theorem progress_update_law_no_overshoot (deltas : List ℝ)
    (hd : ∀ d ∈ deltas, 0 ≤ d ∧ d * TRANSITION_SPEED ≤ 1) :
    (∀ p g d, stepProgress (some p) g d = p + (g - p) * d * TRANSITION_SPEED ∧
      foliageProgressStep p g d = p + (g - p) * d * TRANSITION_SPEED) ∧
    (∀ p d, 0 ≤ p → p ≤ 1 → 0 ≤ d → d * TRANSITION_SPEED ≤ 1 →
      p ≤ foliageProgressStep p 1 d ∧ foliageProgressStep p 1 d ≤ 1) ∧
    (∀ p d, 0 ≤ p → 0 ≤ d → d * TRANSITION_SPEED ≤ 1 →
      0 ≤ foliageProgressStep p 0 d ∧ foliageProgressStep p 0 d ≤ p) ∧
    (0 ≤ integrate 0 1 deltas ∧ integrate 0 1 deltas ≤ 1) := by
  refine ⟨fun p g d => ⟨rfl, rfl⟩, foliageProgressStep_toward_one, ?_, ?_⟩
  · intro p d hp0 hd0 hd1
    unfold foliageProgressStep TRANSITION_SPEED at *
    constructor
    · nlinarith [mul_nonneg hp0 hd0]
    · nlinarith [mul_nonneg hp0 hd0]
  · exact integrate_toward_one_bounds deltas 0 le_rfl (by norm_num) hd

theorem progress_update_law_no_overshoot_witness :
    (∀ d ∈ [(0.25:ℝ), 0.1], 0 ≤ d ∧ d * TRANSITION_SPEED ≤ 1) ∧
    ((∀ p g d, stepProgress (some p) g d = p + (g - p) * d * TRANSITION_SPEED ∧
       foliageProgressStep p g d = p + (g - p) * d * TRANSITION_SPEED) ∧
     (∀ p d, 0 ≤ p → p ≤ 1 → 0 ≤ d → d * TRANSITION_SPEED ≤ 1 →
       p ≤ foliageProgressStep p 1 d ∧ foliageProgressStep p 1 d ≤ 1) ∧
     (∀ p d, 0 ≤ p → 0 ≤ d → d * TRANSITION_SPEED ≤ 1 →
       0 ≤ foliageProgressStep p 0 d ∧ foliageProgressStep p 0 d ≤ p) ∧
     (0 ≤ integrate 0 1 [(0.25:ℝ), 0.1] ∧ integrate 0 1 [(0.25:ℝ), 0.1] ≤ 1)) :=
  ⟨by intro d hd
      simp only [List.mem_cons, List.not_mem_nil, or_false] at hd
      rcases hd with h | h <;> subst h <;> norm_num [TRANSITION_SPEED],
   progress_update_law_no_overshoot [(0.25:ℝ), 0.1]
     (by intro d hd
         simp only [List.mem_cons, List.not_mem_nil, or_false] at hd
         rcases hd with h | h <;> subst h <;> norm_num [TRANSITION_SPEED])⟩

/-- C1 counterexample: with dt = 1 (dt * k = 2 > 1) a single frame of
the progress update starting from 0 toward target 1 produces 2, which
exceeds 1 — the integrator does overshoot for large enough dt ≥ 0. -/
theorem progress_overshoot_cex :
    stepProgress (some 0) 1 1 = 2 ∧ ¬ (stepProgress (some 0) 1 1 ≤ 1) := by
  norm_num [stepProgress, TRANSITION_SPEED]

/-- C2: the host-evaluated easing in animateMesh and the
shader-evaluated easeInOutCubic compute the same cubic curve
4x^3 for x < 0.5 and 1 - ((-2x+2)^3)/2 otherwise, so for every
x in [0,1] the two evaluation paths return equal values, with
ease(0) = 0, ease(1) = 1 and ease(0.5) = 0.5. -/
theorem easing_paths_agree (x : ℝ) (h0 : 0 ≤ x) (h1 : x ≤ 1) :
    hostEase x = easeInOutCubic x ∧ easeInOutCubic x = specEase x ∧
    easeInOutCubic 0 = 0 ∧ easeInOutCubic 1 = 1 ∧
    easeInOutCubic 0.5 = 0.5 := by
  refine ⟨?_, ?_, ?_, ?_, ?_⟩
  · unfold hostEase easeInOutCubic
    split_ifs <;> norm_num
  · unfold easeInOutCubic specEase
    split_ifs <;> ring_nf
  · norm_num [easeInOutCubic]
  · norm_num [easeInOutCubic]
  · norm_num [easeInOutCubic]

theorem easing_paths_agree_witness :
    ((0:ℝ) ≤ 0.25 ∧ (0.25:ℝ) ≤ 1) ∧
    (hostEase 0.25 = easeInOutCubic 0.25 ∧
     easeInOutCubic 0.25 = specEase 0.25 ∧
     easeInOutCubic 0 = 0 ∧ easeInOutCubic 1 = 1 ∧
     easeInOutCubic 0.5 = 0.5) :=
  ⟨by norm_num, easing_paths_agree 0.25 (by norm_num) (by norm_num)⟩

/-- C3: at progress 1 the blended position of every element of every
pool — host-evaluated instance or shader-evaluated particle — equals
its formed (tree) endpoint exactly, and at progress 0 its scattered
endpoint; in particular for the 3-element pool with scattered endpoints
at the origin and formed endpoints (1,1,1), (2,2,2), (3,3,3). -/
theorem blend_endpoints_exact :
    (∀ (d : PositionData) (i : ℕ) (clockTime scaleMult : ℝ) (wobble : Bool),
      (instanceTransform d i (hostEase 1) clockTime scaleMult wobble).position =
        d.treePosition ∧
      (instanceTransform d i (hostEase 0) clockTime scaleMult wobble).position =
        d.scatterPosition) ∧
    (∀ (aScatterPos aTreePos : ℝ × ℝ × ℝ) (aRandom : ℝ),
      0 ≤ aRandom → aRandom ≤ 1 →
      foliageBlendedPos aScatterPos aTreePos 1 aRandom = aTreePos ∧
      foliageBlendedPos aScatterPos aTreePos 0 aRandom = aScatterPos) ∧
    (∀ clockTime : ℝ,
      (animateMesh (some 1) demoPool 0 clockTime 1 1 false).2.map
        (fun pr => pr.2.position) = [(1, 1, 1), (2, 2, 2), (3, 3, 3)] ∧
      (animateMesh (some 0) demoPool 0 clockTime 0 1 false).2.map
        (fun pr => pr.2.position) = [(0, 0, 0), (0, 0, 0), (0, 0, 0)]) := by
  refine ⟨?_, ?_, ?_⟩
  · intro d i clockTime scaleMult wobble
    constructor
    · simp [instanceTransform, hostEase_one, lerp_one]
    · simp [instanceTransform, hostEase_zero, lerp_zero]
  · intro aScatterPos aTreePos aRandom h0 h1
    constructor
    · unfold foliageBlendedPos
      rw [localProgress_one aRandom h0 h1, easeInOutCubic_one,
        mixGL_one, mixGL_one, mixGL_one]
    · unfold foliageBlendedPos
      rw [localProgress_zero aRandom h0, easeInOutCubic_zero,
        mixGL_zero, mixGL_zero, mixGL_zero]
  · intro clockTime
    constructor
    · simp [animateMesh, demoPool, List.enum, List.enumFrom,
        stepProgress_some_zero, instanceTransform, hostEase_one, lerp_one]
    · simp [animateMesh, demoPool, List.enum, List.enumFrom,
        stepProgress_some_zero, instanceTransform, hostEase_zero, lerp_zero]

theorem blend_endpoints_exact_witness :
    ((0:ℝ) ≤ 0.5 ∧ (0.5:ℝ) ≤ 1) ∧
    (foliageBlendedPos (0, 0, 0) (1, 1, 1) 1 0.5 = (1, 1, 1) ∧
     foliageBlendedPos (0, 0, 0) (1, 1, 1) 0 0.5 = (0, 0, 0)) :=
  ⟨by norm_num,
   blend_endpoints_exact.2.1 (0, 0, 0) (1, 1, 1) 0.5 (by norm_num) (by norm_num)⟩

/-- C6: a per-frame update with dt = 0 (elapsed time unchanged) leaves
every pool's progress, every instance transform write and the star
transform exactly as the previous frame left them, and leaves the
foliage uniforms unchanged. -/
theorem frame_update_zero_dt_identity (s : OrnamentsState)
    (gold red bell : List PositionData) (delta time : ℝ) (f : Bool) (p : ℝ) :
    ornamentsUseFrame (ornamentsUseFrame s gold red bell delta time f).state
        gold red bell 0 time f = ornamentsUseFrame s gold red bell delta time f ∧
    foliageUseFrame p time 0 f = (time, p) := by
  constructor
  · simp [ornamentsUseFrame, animateMesh, stepProgress_some_zero]
  · simp [foliageUseFrame, foliageProgressStep]

/-- C9: a missing stored pool progress is read as 0 by animateMesh and
as the target-state-derived value by the star update, and the frame
still writes one well-defined transform per element. -/
theorem missing_progress_defaults :
    (∀ (data : List PositionData) (delta time target mult : ℝ) (wobble : Bool),
      animateMesh none data delta time target mult wobble =
        animateMesh (some 0) data delta time target mult wobble ∧
      (animateMesh none data delta time target mult wobble).2.length =
        data.length) ∧
    (∀ f : Bool, starP none f = targetOf f) := by
  refine ⟨fun data delta time target mult wobble => ⟨rfl, ?_⟩, fun f => ?_⟩
  · simp [animateMesh, List.enum_length]
  · cases f <;> norm_num [starP, targetOf]

/-- C10: each instanced ornament mesh is allocated ORNAMENT_COUNT = 450
slots, the data arrays hold floor(0.4*450) = 180 (spheres, boxes) and
floor(0.2*450) = 90 (bells) entries, and animateMesh writes exactly the
slots below the data length — any slot at or beyond it is never
written. -/
theorem instance_write_bounds :
    ORNAMENT_COUNT = 450 ∧
    goldSphereDataLength = 180 ∧ redBoxDataLength = 180 ∧ bellDataLength = 90 ∧
    goldSphereDataLength < ORNAMENT_COUNT ∧ bellDataLength < ORNAMENT_COUNT ∧
    (∀ (stored : Option ℝ) (data : List PositionData)
      (delta time target mult : ℝ) (wobble : Bool),
      (animateMesh stored data delta time target mult wobble).2.map Prod.fst =
        List.range data.length) ∧
    (∀ (stored : Option ℝ) (data : List PositionData)
      (delta time target mult : ℝ) (wobble : Bool) (j : ℕ),
      data.length ≤ j →
      j ∉ (animateMesh stored data delta time target mult wobble).2.map Prod.fst) := by
  have hmap : ∀ (stored : Option ℝ) (data : List PositionData)
      (delta time target mult : ℝ) (wobble : Bool),
      (animateMesh stored data delta time target mult wobble).2.map Prod.fst =
        List.range data.length := by
    intro stored data delta time target mult wobble
    simp only [animateMesh, List.map_map]
    exact List.enum_map_fst data
  refine ⟨rfl, ?_, ?_, ?_, ?_, ?_, hmap, ?_⟩
  · norm_num [goldSphereDataLength, ORNAMENT_COUNT]
    rfl
  · norm_num [redBoxDataLength, ORNAMENT_COUNT]
    rfl
  · norm_num [bellDataLength, ORNAMENT_COUNT]
    rfl
  · norm_num [goldSphereDataLength, ORNAMENT_COUNT]
  · norm_num [bellDataLength, ORNAMENT_COUNT]
  · intro stored data delta time target mult wobble j hj
    rw [hmap]
    simp only [List.mem_range]
    omega

theorem instance_write_bounds_witness :
    demoPool.length ≤ 5 ∧
    5 ∉ (animateMesh (some 0) demoPool 0 0 1 1 false).2.map Prod.fst :=
  ⟨by simp [demoPool],
   instance_write_bounds.2.2.2.2.2.2.2 (some 0) demoPool 0 0 1 1 false 5
     (by simp [demoPool])⟩

/-- C7: in the particle shader every element's local progress equals
clamp(globalProgress * 1.2 - randomSeed * 0.2, 0, 1); for a fixed global
progress an element with a larger random seed never has a larger local
progress, and local progress always lies in [0,1]. -/
theorem local_progress_clamped (g r1 r2 : ℝ) (h : r1 ≤ r2) :
    (∀ s, localProgress g s = clampGL (g * 1.2 - s * 0.2) 0 1) ∧
    localProgress g r2 ≤ localProgress g r1 ∧
    (∀ s, 0 ≤ localProgress g s ∧ localProgress g s ≤ 1) := by
  refine ⟨fun s => by norm_num [localProgress], ?_, fun s => ⟨?_, ?_⟩⟩
  · unfold localProgress clampGL
    have hx : g * 1.2 - r2 * 0.2 ≤ g * 1.2 - r1 * 0.2 := by nlinarith
    exact min_le_min (max_le_max hx le_rfl) le_rfl
  · unfold localProgress clampGL
    exact le_min (le_trans (by norm_num) (le_max_right (g * 1.2 - s * 0.2) 0.0))
      (by norm_num)
  · unfold localProgress clampGL
    exact le_trans (min_le_right _ _) (by norm_num)

theorem local_progress_clamped_witness :
    ((0.1:ℝ) ≤ 0.9) ∧
    ((∀ s, localProgress 0.5 s = clampGL (0.5 * 1.2 - s * 0.2) 0 1) ∧
     localProgress 0.5 0.9 ≤ localProgress 0.5 0.1 ∧
     (∀ s, 0 ≤ localProgress 0.5 s ∧ localProgress 0.5 s ≤ 1)) :=
  ⟨by norm_num, local_progress_clamped 0.5 0.1 0.9 (by norm_num)⟩

/-- C8: on [0,1] the easing function is monotonically non-decreasing and
satisfies the point symmetry ease(x) = 1 - ease(1-x) around 0.5. -/
theorem ease_monotone_symmetric (x y : ℝ) (hx : 0 ≤ x) (hxy : x ≤ y)
    (hy : y ≤ 1) : hostEase x ≤ hostEase y ∧
    hostEase x = 1 - hostEase (1 - x) := by
  constructor
  · unfold hostEase
    split_ifs with h1 h2 h2
    · nlinarith [sq_nonneg (x + y), sq_nonneg (x - y), mul_nonneg hx (sub_nonneg.2 hxy)]
    · nlinarith [mul_nonneg hx hx, sq_nonneg (1 - y), mul_nonneg (sub_nonneg.2 hy) (sq_nonneg (1 - y))]
    · linarith
    · nlinarith [sq_nonneg ((1 - x) + (1 - y)), sq_nonneg (x - y), mul_nonneg (sub_nonneg.2 hy) (sub_nonneg.2 hxy)]
  · unfold hostEase
    split_ifs with h1 h2 h2
    · linarith
    · ring_nf
    · ring_nf
    · have hx5 : x = 0.5 := by linarith
      rw [hx5]; norm_num

/-- C4 counterexample: the pools do not share one scattered-endpoint
rule. At radius draw 0 the foliage cube-root sampler yields radius 0,
while the ornament generator always uses the fixed radius
SCATTER_RADIUS * 0.9 = 13.5 and involves no cube-root sampling. -/
theorem scatter_rule_divergence_cex :
    foliageScatterRadius 0 = 0 ∧ ornamentScatterRadius = 13.5 ∧
    foliageScatterRadius 0 ≠ ornamentScatterRadius := by
  have h0 : foliageScatterRadius 0 = 0 := by
    unfold foliageScatterRadius mathCbrt
    rw [Real.zero_rpow (by norm_num)]
    ring
  have h1 : ornamentScatterRadius = 13.5 := by
    norm_num [ornamentScatterRadius, SCATTER_RADIUS]
  exact ⟨h0, h1, by rw [h0, h1]; norm_num⟩

/-- C4 (amended): both generators share the spherical-coordinate angle
formulas (theta = 2 PI u, phi = acos(2v - 1)) and the vertical offset
HEIGHT / 2, but only the particle field samples its radius by the
cube-root rule (radius cubed = draw * S cubed, radius in [0, S]); the
ornament pools use the fixed radius 0.9 * S, a sphere shell rather than
a uniform ball. -/
theorem scatter_rules_characterized (u v w : ℝ) (hw0 : 0 ≤ w) (hw1 : w ≤ 1) :
    foliageScatterPos u v w =
      scatterPoint (foliageScatterRadius w) (scatterTheta u) (scatterPhi v) ∧
    ornamentScatterPos u v =
      scatterPoint ornamentScatterRadius (scatterTheta u) (scatterPhi v) ∧
    foliageScatterRadius w ^ 3 = w * SCATTER_RADIUS ^ 3 ∧
    0 ≤ foliageScatterRadius w ∧ foliageScatterRadius w ≤ SCATTER_RADIUS ∧
    ornamentScatterRadius = 0.9 * SCATTER_RADIUS := by
  refine ⟨rfl, rfl, ?_, ?_, ?_,
    by norm_num [ornamentScatterRadius, SCATTER_RADIUS]⟩
  · unfold foliageScatterRadius
    rw [mul_pow, mathCbrt_cube w hw0]
  · exact mul_nonneg (mathCbrt_nonneg w hw0) (by norm_num [SCATTER_RADIUS])
  · unfold foliageScatterRadius
    calc mathCbrt w * SCATTER_RADIUS ≤ 1 * SCATTER_RADIUS := by
          apply mul_le_mul_of_nonneg_right (mathCbrt_le_one w hw0 hw1)
          norm_num [SCATTER_RADIUS]
      _ = SCATTER_RADIUS := one_mul _

theorem scatter_rules_characterized_witness :
    ((0:ℝ) ≤ 1 ∧ (1:ℝ) ≤ 1) ∧
    (foliageScatterPos 0 0 1 =
       scatterPoint (foliageScatterRadius 1) (scatterTheta 0) (scatterPhi 0) ∧
     ornamentScatterPos 0 0 =
       scatterPoint ornamentScatterRadius (scatterTheta 0) (scatterPhi 0) ∧
     foliageScatterRadius 1 ^ 3 = 1 * SCATTER_RADIUS ^ 3 ∧
     0 ≤ foliageScatterRadius 1 ∧ foliageScatterRadius 1 ≤ SCATTER_RADIUS ∧
     ornamentScatterRadius = 0.9 * SCATTER_RADIUS) :=
  ⟨by norm_num, scatter_rules_characterized 0 0 1 (by norm_num) (by norm_num)⟩

/-- C5 counterexample: the formed-layout radius is not strictly greater
than 0.7 * R * (1 - h): at radius draw 0 (Math.random() can return 0)
and height fraction 0 it equals the bound exactly. -/
theorem sample_bounds_cex :
    foliageTreeRadius 0 0 = 0.7 * (RADIUS_BASE * (1 - 0)) ∧
    ¬ (0.7 * (RADIUS_BASE * (1 - 0)) < foliageTreeRadius 0 0) := by
  norm_num [foliageTreeRadius, RADIUS_BASE]

/-- C5 (amended): for every formed-layout particle sample with height
fraction h the sampled radius lies in
[0.7 * R * (1 - h), R * (1 - h)] (the lower bound is attained at draw
0, so not strict), and every scattered-layout sample — particle or
ornament — lies within distance S of the scatter center. -/
theorem sample_bounds (radiusRand h u v w : ℝ)
    (hr0 : 0 ≤ radiusRand) (hr1 : radiusRand < 1)
    (hh0 : 0 ≤ h) (hh1 : h < 1)
    (hw0 : 0 ≤ w) (hw1 : w < 1) :
    0.7 * (RADIUS_BASE * (1 - h)) ≤ foliageTreeRadius radiusRand h ∧
    foliageTreeRadius radiusRand h ≤ RADIUS_BASE * (1 - h) ∧
    distFromScatterCenter (foliageScatterPos u v w) ≤ SCATTER_RADIUS ∧
    distFromScatterCenter (ornamentScatterPos u v) ≤ SCATTER_RADIUS := by
  have hbase : 0 ≤ RADIUS_BASE * (1 - h) := by
    unfold RADIUS_BASE
    nlinarith
  refine ⟨?_, ?_, ?_, ?_⟩
  · unfold foliageTreeRadius
    nlinarith [mul_nonneg hr0 hbase]
  · unfold foliageTreeRadius
    nlinarith [mul_nonneg (by linarith : (0:ℝ) ≤ 1 - radiusRand) hbase]
  · have hrw : foliageScatterPos u v w =
        scatterPoint (foliageScatterRadius w) (scatterTheta u) (scatterPhi v) := rfl
    have hsr0 : 0 ≤ foliageScatterRadius w :=
      mul_nonneg (mathCbrt_nonneg w hw0) (by norm_num [SCATTER_RADIUS])
    rw [hrw, distFromScatterCenter_scatterPoint _ _ _ hsr0]
    unfold foliageScatterRadius
    calc mathCbrt w * SCATTER_RADIUS ≤ 1 * SCATTER_RADIUS := by
          apply mul_le_mul_of_nonneg_right
            (mathCbrt_le_one w hw0 (le_of_lt hw1))
          norm_num [SCATTER_RADIUS]
      _ = SCATTER_RADIUS := one_mul _
  · have hrw : ornamentScatterPos u v =
        scatterPoint ornamentScatterRadius (scatterTheta u) (scatterPhi v) := rfl
    have hsr0 : 0 ≤ ornamentScatterRadius := by
      norm_num [ornamentScatterRadius, SCATTER_RADIUS]
    rw [hrw, distFromScatterCenter_scatterPoint _ _ _ hsr0]
    norm_num [ornamentScatterRadius, SCATTER_RADIUS]

theorem sample_bounds_witness :
    ((0:ℝ) ≤ 0.5 ∧ (0.5:ℝ) < 1 ∧ (0:ℝ) ≤ 0.25 ∧ (0.25:ℝ) < 1 ∧
     (0:ℝ) ≤ 0.5 ∧ (0.5:ℝ) < 1) ∧
    (0.7 * (RADIUS_BASE * (1 - 0.25)) ≤ foliageTreeRadius 0.5 0.25 ∧
     foliageTreeRadius 0.5 0.25 ≤ RADIUS_BASE * (1 - 0.25) ∧
     distFromScatterCenter (foliageScatterPos 0 0 0.5) ≤ SCATTER_RADIUS ∧
     distFromScatterCenter (ornamentScatterPos 0 0) ≤ SCATTER_RADIUS) :=
  ⟨by norm_num,
   sample_bounds 0.5 0.25 0 0 0.5 (by norm_num) (by norm_num) (by norm_num)
     (by norm_num) (by norm_num) (by norm_num)⟩

theorem ease_monotone_symmetric_witness :
    ((0:ℝ) ≤ 0.25 ∧ (0.25:ℝ) ≤ 0.75 ∧ (0.75:ℝ) ≤ 1) ∧
    (hostEase 0.25 ≤ hostEase 0.75 ∧
     hostEase 0.25 = 1 - hostEase (1 - 0.25)) :=
  ⟨by norm_num,
   ease_monotone_symmetric 0.25 0.75 (by norm_num) (by norm_num) (by norm_num)⟩

end Xmas
